import Mathlib

/-!
Verification development for the function-deployment lifecycle subsystem of the
agentcloud webapp.  The definitions below are shallow embeddings of:

  * GoogleFunctionProvider.waitForFunctionToBeActive, deployFunction and
    deleteFunction (function provider source file);
  * the tool controller functions addToolApi, editToolApi and deleteToolApi
    (webapp tool controller), in particular the conditional editToolUnsafe
    updates that reconcile an asynchronous deployment outcome into the
    persisted tool record;
  * updateAsset (webapp/src/db/asset.ts).

Asynchronous provider calls are modelled by passing their observed outcomes as
explicit arguments (a trace of getFunctionState results, an Except value for a
deploy call, a Bool for activation), and database writes are modelled as pure
state transitions on a single tool document together with the mongo
matchedCount / modifiedCount bookkeeping that the controller code inspects.
Externally visible side effects (backend function deletion, deploy kickoff,
user notices, record removal) are collected into an ordered action list.
-/

namespace AgentCloud

/-- Tool type tags from struct/tool.  Only FUNCTION_TOOL participates in the
deployment lifecycle. -/
inductive ToolType
  | RAG_TOOL
  | FUNCTION_TOOL
  | API_TOOL
deriving DecidableEq, Repr

/-- Tool lifecycle states from struct/tool. -/
inductive ToolState
  | PENDING
  | READY
  | ERROR
deriving DecidableEq, Repr

/-- The deployment-relevant part of a persisted tool document.  Fields not read
or written by the deployment flows (name, description, schema, data, icon, ...)
are omitted; none of them occurs in a conditional-update filter. -/
structure ToolRecord where
  _id : Nat
  teamId : Nat
  type : ToolType
  state : ToolState
  functionId : Option String
  functionLogs : Option String
deriving DecidableEq, Repr

/-- Externally visible side effects of the orchestrator, in program order. -/
inductive Action
  | deployFunction (functionId : String)
  | deleteFunction (functionId : Option String)
  | notify
  | deleteToolRecord
  | removeAgentsTool
deriving DecidableEq, Repr

/-- Outcome of the HTTP request handler (dynamicResponse status). -/
inductive HttpOutcome
  | redirect
  | badRequest
deriving DecidableEq, Repr

/-- JS truthiness of a possibly absent string value (undefined and the empty
string are falsy). -/
def jsTruthy : Option String → Bool
  | none => false
  | some s => s != ""

/-- Result of one run of the waitForFunctionToBeActive polling loop:
the returned boolean, the total time spent sleeping, the number of
getFunctionState polls made, and the successive sleep delays in order. -/
structure WaitResult where
  result : Bool
  elapsed : Nat
  polls : Nat
  delays : List Nat
deriving DecidableEq, Repr

/-- Loop of GoogleFunctionProvider.waitForFunctionToBeActive.  `states k` is
the string returned by the k-th getFunctionState call (that method never
throws: it returns the backend state or the sentinel "ERROR").  `elapsed` is
the time slept so far, standing for Date.now() - startTime under the
idealisation that polls are instantaneous and each setTimeout sleeps exactly
its argument.  The loop runs while elapsed < maxWaitTime; on an "ACTIVE" poll
it returns true, on any poll other than "ACTIVE" and "DEPLOYING" it returns
false at once, otherwise it sleeps waitTime and doubles it, capped at
60000. -/
def waitAux (states : Nat → String) (maxWaitTime k elapsed waitTime : Nat)
    (hw : 0 < waitTime) : WaitResult :=
  if h : elapsed < maxWaitTime then
    if states k = "ACTIVE" then
      { result := true, elapsed := elapsed, polls := 1, delays := [] }
    else if states k ≠ "DEPLOYING" then
      { result := false, elapsed := elapsed, polls := 1, delays := [] }
    else
      let rest := waitAux states maxWaitTime (k + 1) (elapsed + waitTime)
        (min (waitTime * 2) 60000) (by omega)
      { result := rest.result, elapsed := rest.elapsed, polls := rest.polls + 1,
        delays := waitTime :: rest.delays }
  else
    { result := false, elapsed := elapsed, polls := 0, delays := [] }
termination_by maxWaitTime - elapsed
decreasing_by omega

/-- GoogleFunctionProvider.waitForFunctionToBeActive: starts with elapsed 0 and
an initial delay of 5000 ms; in the source maxWaitTime defaults to
180000 ms. -/
def waitForFunctionToBeActive (states : Nat → String)
    (maxWaitTime : Nat) : WaitResult :=
  waitAux states maxWaitTime 0 0 5000 (by omega)

/-- Outcome of the getFunction existence probe inside deployFunction: either
the backend returned a function, or it raised an error with a numeric code
(code 5 is NOT_FOUND). -/
inductive ProbeResult
  | ok
  | err (code : Nat)
deriving DecidableEq, Repr

/-- The two backend calls deployFunction can make after the existence probe. -/
inductive DeployCall
  | updateFunction
  | createFunction
deriving DecidableEq, Repr

/-- The existence-check block of GoogleFunctionProvider.deployFunction: a
getFunction success sets functionExists, an error with code 5 (NOT_FOUND) is
swallowed leaving functionExists false, and any other error is rethrown. -/
def checkFunctionExists : ProbeResult → Except Nat Bool
  | ProbeResult.ok => Except.ok true
  | ProbeResult.err c => if c ≠ 5 then Except.error c else Except.ok false

/-- GoogleFunctionProvider.deployFunction after the artifact upload: run the
existence probe, then call updateFunction when the function exists and
createFunction otherwise; errors of that call are rethrown, a success returns
the fully qualified function name. -/
def deployFunction (probe : ProbeResult)
    (runCall : DeployCall → Except Nat String) : Except Nat String :=
  match checkFunctionExists probe with
  | Except.error c => Except.error c
  | Except.ok functionExists =>
    match (if functionExists then runCall DeployCall.updateFunction
           else runCall DeployCall.createFunction) with
    | Except.error e => Except.error e
    | Except.ok functionName => Except.ok functionName

/-- The editToolUnsafe call in the addToolApi reconciliation: a mongo updateOne
whose filter is made of _id, teamId, functionId and type = FUNCTION_TOOL and
whose update sets state to READY or ERROR and, on failure with truthy logs,
functionLogs.  Returns the resulting document and the modifiedCount (1 exactly
when the filter matched and the update changed the document). -/
def addToolCas (recId teamId : Nat) (functionId : String) (isActive : Bool)
    (logs : Option String) (r : ToolRecord) : ToolRecord × Nat :=
  if r._id = recId ∧ r.teamId = teamId ∧ r.functionId = some functionId ∧
      r.type = ToolType.FUNCTION_TOOL then
    let r' : ToolRecord :=
      { r with
        state := if isActive then ToolState.READY else ToolState.ERROR,
        functionLogs := if !isActive && jsTruthy logs then logs
                        else r.functionLogs }
    (r', if r' = r then 0 else 1)
  else (r, 0)

/-- The editToolUnsafe call in the editToolApi reconciliation: the filter is
made of _id, teamId, state = PENDING and type = FUNCTION_TOOL; the update sets
state to READY or ERROR, overwrites functionId with the new id only on
success, and records truthy logs on failure. -/
def editToolCas (recId teamId : Nat) (newFunctionId : String) (isActive : Bool)
    (logs : Option String) (r : ToolRecord) : ToolRecord × Nat :=
  if r._id = recId ∧ r.teamId = teamId ∧ r.state = ToolState.PENDING ∧
      r.type = ToolType.FUNCTION_TOOL then
    let r' : ToolRecord :=
      { r with
        state := if isActive then ToolState.READY else ToolState.ERROR,
        functionId := if isActive then some newFunctionId else r.functionId,
        functionLogs := if !isActive && jsTruthy logs then logs
                        else r.functionLogs }
    (r', if r' = r then 0 else 1)
  else (r, 0)

/-- The asynchronous continuation of addToolApi once waitForFunctionToBeActive
has resolved to isActive: run the conditional update; when its modifiedCount
is 0 delete the just-deployed function and stop; otherwise, when not active,
delete the broken function; in both surviving paths emit the user notice.
Returns the resulting record, the modifiedCount and the action list. -/
def addToolReconcile (recId teamId : Nat) (functionId : String)
    (isActive : Bool) (logs : Option String) (r : ToolRecord) :
    ToolRecord × Nat × List Action :=
  let step := addToolCas recId teamId functionId isActive logs r
  if step.2 = 0 then
    (step.1, step.2, [Action.deleteFunction (some functionId)])
  else if !isActive then
    (step.1, step.2, [Action.deleteFunction (some functionId), Action.notify])
  else
    (step.1, step.2, [Action.notify])

/-- The asynchronous continuation of editToolApi once the new deployment has
resolved to isActive: run the conditional update; when its modifiedCount is 0
delete the new function and stop; otherwise emit the notice, then delete the
new function when it failed to activate, and delete the old function when the
new one is active and the pre-edit record carried a truthy functionId. -/
def editToolReconcile (recId teamId : Nat) (newFunctionId : String)
    (oldFunctionId : Option String) (isActive : Bool) (logs : Option String)
    (r : ToolRecord) : ToolRecord × Nat × List Action :=
  let step := editToolCas recId teamId newFunctionId isActive logs r
  if step.2 = 0 then
    (step.1, step.2, [Action.deleteFunction (some newFunctionId)])
  else
    (step.1, step.2,
      Action.notify ::
        ((if !isActive then [Action.deleteFunction (some newFunctionId)]
          else []) ++
         (if isActive && jsTruthy oldFunctionId then
            [Action.deleteFunction oldFunctionId]
          else [])))

/-- The document inserted by addToolApi: state is PENDING and functionId a
fresh uuid for a FUNCTION_TOOL, otherwise state READY and functionId null. -/
def addToolInsert (recId teamId : Nat) (type : ToolType)
    (freshFunctionId : String) : ToolRecord :=
  { _id := recId, teamId := teamId, type := type,
    state := if type = ToolType.FUNCTION_TOOL then ToolState.PENDING
             else ToolState.READY,
    functionId := if type = ToolType.FUNCTION_TOOL then some freshFunctionId
                  else none,
    functionLogs := none }

/-- addToolApi after validation, for a single (non superseded) attempt: insert
the record; for a FUNCTION_TOOL kick off deployFunction detached from the
request.  The promise chain is deployFunction(args).then(continuation) with no
rejection handler anywhere on that outer chain, so when the deploy call
rejects the continuation never runs and nothing else happens: the record stays
as inserted and no cleanup action is produced.  The dead try/catch around the
kickoff cannot observe an asynchronous rejection, hence the handler always
answers with the 302 redirect. -/
def addToolApi (recId teamId : Nat) (type : ToolType) (freshFunctionId : String)
    (deployOutcome : Except Nat Unit) (isActive : Bool) (logs : Option String) :
    ToolRecord × List Action × HttpOutcome :=
  let r0 := addToolInsert recId teamId type freshFunctionId
  if type = ToolType.FUNCTION_TOOL then
    match deployOutcome with
    | Except.error _ =>
      (r0, [Action.deployFunction freshFunctionId], HttpOutcome.redirect)
    | Except.ok _ =>
      let out := addToolReconcile recId teamId freshFunctionId isActive logs r0
      (out.1, Action.deployFunction freshFunctionId :: out.2.2,
        HttpOutcome.redirect)
  else (r0, [], HttpOutcome.redirect)

/-- A JS value as compared by the strict inequality in the editToolApi change
check.  Objects carry a heap reference besides their content, because the
strict comparison of two objects compares references, never content. -/
inductive JsValue
  | undef
  | str (s : String)
  | obj (ref : Nat) (entries : List (String × String))
deriving DecidableEq, Repr

/-- JS strict equality on the values that the change check reads: primitives
compare by value, objects by reference. -/
def jsStrictEq : JsValue → JsValue → Bool
  | JsValue.undef, JsValue.undef => true
  | JsValue.str a, JsValue.str b => a == b
  | JsValue.obj r1 _, JsValue.obj r2 _ => r1 == r2
  | _, _ => false

/-- The four deployment-relevant values read by getDotProp in editToolApi. -/
structure DeployFields where
  environmentVariables : JsValue
  code : JsValue
  requirements : JsValue
  runtime : JsValue
deriving DecidableEq, Repr

/-- The functionNeedsUpdate check of editToolApi: some key among
data.environmentVariables, data.code, data.requirements and runtime differs
between the request body and the stored tool under JS strict inequality. -/
def functionNeedsUpdate (body existing : DeployFields) : Bool :=
  !jsStrictEq body.environmentVariables existing.environmentVariables ||
  !jsStrictEq body.code existing.code ||
  !jsStrictEq body.requirements existing.requirements ||
  !jsStrictEq body.runtime existing.runtime

/-- The synchronous part of editToolApi after validation: unconditionally
write the edited fields with state PENDING for a FUNCTION_TOOL (READY
otherwise); then, when the type moves away from FUNCTION_TOOL, delete the
existing backend function; when the type is FUNCTION_TOOL and the change
check fires, kick off a deployment under a fresh functionId. -/
def editToolSync (existing : ToolRecord) (bodyFields existingFields : DeployFields)
    (newType : ToolType) (freshFunctionId : String) : ToolRecord × List Action :=
  let needsUpdate := functionNeedsUpdate bodyFields existingFields
  let r1 : ToolRecord :=
    { existing with
      type := newType,
      state := if newType = ToolType.FUNCTION_TOOL then ToolState.PENDING
               else ToolState.READY }
  if existing.type = ToolType.FUNCTION_TOOL ∧ newType ≠ ToolType.FUNCTION_TOOL then
    (r1, [Action.deleteFunction existing.functionId])
  else if newType = ToolType.FUNCTION_TOOL ∧ needsUpdate = true then
    (r1, [Action.deployFunction freshFunctionId])
  else (r1, [])

/-- deleteToolApi for an existing tool: for a FUNCTION_TOOL the provider
deleteFunction call on the stored functionId is awaited first; only once it
resolves are the tool record and its references in agents removed.  deleteOk
tells whether that awaited call resolves; on a rejection the handler rejects
before any removal. -/
def deleteToolApi (tool : ToolRecord) (deleteOk : Bool) : List Action :=
  if tool.type = ToolType.FUNCTION_TOOL then
    if deleteOk then
      [Action.deleteFunction tool.functionId, Action.deleteToolRecord,
        Action.removeAgentsTool]
    else
      [Action.deleteFunction tool.functionId]
  else
    [Action.deleteToolRecord, Action.removeAgentsTool]

/-- An asset document (db/asset.ts); only representative fields are kept. -/
structure Asset where
  teamId : Nat
  filename : String
deriving DecidableEq, Repr

/-- An updateData payload for updateAsset: a subset of Asset fields, applied
through mongo set semantics. -/
structure AssetSet where
  teamId : Option Nat
  filename : Option String
deriving DecidableEq, Repr

/-- Apply a set payload to an asset document. -/
def applySet (u : AssetSet) (a : Asset) : Asset :=
  { teamId := u.teamId.getD a.teamId,
    filename := u.filename.getD a.filename }

/-- Replace the first document with the given id. -/
def setFirst : List (Nat × Asset) → Nat → Asset → List (Nat × Asset)
  | [], _, _ => []
  | p :: rest, assetId, a' =>
    if p.1 = assetId then (p.1, a') :: rest else setFirst rest assetId a' |> (p :: ·)

/-- mongo updateOne on the assets collection filtered by _id: returns
matchedCount, modifiedCount and the new collection.  At most one document is
touched; modifiedCount is 0 when the matched document is left unchanged. -/
def assetUpdateOne (assets : List (Nat × Asset)) (assetId : Nat) (u : AssetSet) :
    Nat × Nat × List (Nat × Asset) :=
  match assets.find? (fun p => p.1 == assetId) with
  | none => (0, 0, assets)
  | some p =>
    let a' := applySet u p.2
    (1, if a' = p.2 then 0 else 1, setFirst assets assetId a')

/-- updateAsset (db/asset.ts): updateOne on _id with a set payload, returning
matchedCount > 0.  The function is total: a missing id yields false, it does
not throw. -/
def updateAsset (assets : List (Nat × Asset)) (assetId : Nat) (u : AssetSet) :
    Bool :=
  decide ((assetUpdateOne assets assetId u).1 > 0)
/-- Rewriting step for the capped doubling sequence: doubling once and then
running i more capped doublings is the same as i + 1 capped doublings. -/
theorem min_double_pow (w i : Nat) :
    min (min (w * 2) 60000 * 2 ^ i) 60000 = min (w * 2 ^ (i + 1)) 60000 := by
  rcases le_total (w * 2) 60000 with h | h
  · rw [Nat.min_eq_left h, pow_succ]
    ring_nf
  · rw [Nat.min_eq_right h]
    have h1 : (60000 : Nat) ≤ 60000 * 2 ^ i :=
      le_mul_of_one_le_right (Nat.zero_le _) (Nat.one_le_two_pow)
    have h2 : (60000 : Nat) ≤ w * 2 ^ (i + 1) := by
      calc (60000 : Nat) ≤ 60000 * 2 ^ i := h1
        _ ≤ w * 2 * 2 ^ i := Nat.mul_le_mul_right _ h
        _ = w * 2 ^ (i + 1) := by rw [pow_succ]; ring
    rw [Nat.min_eq_right h1, Nat.min_eq_right h2]

/-- Invariant of the polling loop: when the current delay is at most the cap
and the elapsed time is below maxWaitTime + 60000, the final elapsed time also
stays below maxWaitTime + 60000 (the loop only sleeps while elapsed is below
maxWaitTime, and each sleep adds at most 60000). -/
theorem waitAux_elapsed_lt (states : Nat → String) :
    ∀ fuel maxWaitTime k elapsed waitTime hw, maxWaitTime - elapsed ≤ fuel →
      waitTime ≤ 60000 → elapsed < maxWaitTime + 60000 →
      (waitAux states maxWaitTime k elapsed waitTime hw).elapsed <
        maxWaitTime + 60000 := by
  intro fuel
  induction fuel with
  | zero =>
    intro maxW k e w hw hf h60 he
    unfold waitAux
    rw [dif_neg (by omega)]
    exact he
  | succ n ih =>
    intro maxW k e w hw hf h60 he
    unfold waitAux
    split
    · split
      · exact he
      · split
        · exact he
        · exact ih maxW (k + 1) (e + w) (min (w * 2) 60000) (by omega)
            (by omega) (by omega) (by omega)
    · exact he

/-- The first recorded sleep delay of the polling loop is the initial
waitTime. -/
theorem waitAux_delays_head (states : Nat → String)
    (maxWaitTime k elapsed waitTime : Nat) (hw : 0 < waitTime) :
    (waitAux states maxWaitTime k elapsed waitTime hw).delays ≠ [] →
    (waitAux states maxWaitTime k elapsed waitTime hw).delays.headD 0 =
      waitTime := by
  unfold waitAux
  split
  · split
    · simp
    · split
      · simp
      · intro _; rfl
  · simp

/-- Closed form of the recorded sleep delays: starting from a delay below the
cap, the i-th delay is the initial delay doubled i times, capped at 60000. -/
theorem waitAux_delays_closed (states : Nat → String) :
    ∀ fuel maxWaitTime k elapsed waitTime hw, maxWaitTime - elapsed ≤ fuel →
      waitTime ≤ 60000 →
      ∀ i, i < (waitAux states maxWaitTime k elapsed waitTime hw).delays.length →
        (waitAux states maxWaitTime k elapsed waitTime hw).delays.getD i 0 =
          min (waitTime * 2 ^ i) 60000 := by
  intro fuel
  induction fuel with
  | zero =>
    intro maxW k e w hw hf h60 i hi
    unfold waitAux at hi ⊢
    rw [dif_neg (by omega)] at hi ⊢
    simp at hi
  | succ n ih =>
    intro maxW k e w hw hf h60 i hi
    unfold waitAux at hi ⊢
    split at hi
    · split at hi
      · simp at hi
      · split at hi
        · simp at hi
        · rename_i hlt hact hdep
          rw [dif_pos hlt, if_neg hact, if_neg hdep]
          simp only [List.length_cons] at hi
          match i with
          | 0 =>
            simp [Nat.min_eq_left h60]
          | Nat.succ j =>
            simp only [List.getD_cons_succ]
            rw [ih maxW (k + 1) (e + w) (min (w * 2) 60000) (by omega) (by omega)
              (by omega) j (by omega)]
            exact min_double_pow w j
    · simp at hi

/-- When the polling loop returns true, the poll made right after the last
recorded sleep observed ACTIVE and every earlier poll observed DEPLOYING, so
true is returned at the first observed ACTIVE state. -/
theorem waitAux_true_first (states : Nat → String) :
    ∀ fuel maxWaitTime k elapsed waitTime hw, maxWaitTime - elapsed ≤ fuel →
      (waitAux states maxWaitTime k elapsed waitTime hw).result = true →
      states (k + (waitAux states maxWaitTime k elapsed waitTime hw).delays.length) =
        "ACTIVE" ∧
      ∀ j, j < (waitAux states maxWaitTime k elapsed waitTime hw).delays.length →
        states (k + j) = "DEPLOYING" := by
  intro fuel
  induction fuel with
  | zero =>
    intro maxW k e w hw hf hres
    unfold waitAux at hres
    rw [dif_neg (by omega)] at hres
    simp at hres
  | succ n ih =>
    intro maxW k e w hw hf hres
    unfold waitAux at hres ⊢
    split at hres
    · split at hres
      · rename_i hlt hact
        rw [dif_pos hlt, if_pos hact]
        simpa using hact
      · split at hres
        · simp at hres
        · rename_i hlt hact hdep
          rw [dif_pos hlt, if_neg hact, if_neg hdep]
          have hdep' : states k = "DEPLOYING" := not_not.mp hdep
          obtain ⟨hA, hD⟩ := ih maxW (k + 1) (e + w) (min (w * 2) 60000) (by omega)
            (by omega) hres
          constructor
          · simp only [List.length_cons]
            have : k + ((waitAux states maxW (k + 1) (e + w) (min (w * 2) 60000)
                (by omega)).delays.length + 1) =
                k + 1 + (waitAux states maxW (k + 1) (e + w) (min (w * 2) 60000)
                (by omega)).delays.length := by omega
            rw [this]
            exact hA
          · intro j hj
            simp only [List.length_cons] at hj
            match j with
            | 0 => simpa using hdep'
            | Nat.succ m =>
              have : k + (m + 1) = k + 1 + m := by omega
              rw [this]
              exact hD m (by omega)
    · simp at hres

/-- C1 counterexample.  The claim quantifies over any two overlapping attempts
A then B for the same tool; it fails when A is the create-flow attempt (its
conditional update is keyed on functionId, not on state) and B is an edit-flow
attempt whose function failed to activate.  Concretely: the tool was created
with functionId a; an edit attempt B with new functionId b commits first with
isActive = false, which writes state ERROR but leaves functionId = a; when A
then resolves with isActive = true, its conditional update still matches
(modifiedCount 1, not 0), A does not delete backend function a, and the record
ends up READY with functionId a, reflecting the A outcome instead of the B
outcome only. -/
theorem C1_cross_flow_counterexample :
    (editToolReconcile 1 2 "b" (some "a") false (some "deploy failed")
        { _id := 1, teamId := 2, type := ToolType.FUNCTION_TOOL,
          state := ToolState.PENDING, functionId := some "a",
          functionLogs := none }).2.1 = 1 ∧
    (editToolReconcile 1 2 "b" (some "a") false (some "deploy failed")
        { _id := 1, teamId := 2, type := ToolType.FUNCTION_TOOL,
          state := ToolState.PENDING, functionId := some "a",
          functionLogs := none }).1 =
      { _id := 1, teamId := 2, type := ToolType.FUNCTION_TOOL,
        state := ToolState.ERROR, functionId := some "a",
        functionLogs := some "deploy failed" } ∧
    addToolReconcile 1 2 "a" true none
        { _id := 1, teamId := 2, type := ToolType.FUNCTION_TOOL,
          state := ToolState.ERROR, functionId := some "a",
          functionLogs := some "deploy failed" } =
      ({ _id := 1, teamId := 2, type := ToolType.FUNCTION_TOOL,
          state := ToolState.READY, functionId := some "a",
          functionLogs := some "deploy failed" }, 1, [Action.notify]) := by
  refine ⟨by decide, by decide, by decide⟩

/-- C1 (amended to the edit flow).  For two overlapping edit-flow deployment
attempts A (new functionId a) then B (new functionId b) on the same tool
record, whatever the activation outcomes and logs of either attempt: the B
conditional update commits (modifiedCount 1), and when A then resolves its
conditional update affects zero records, A performs exactly one action,
deleting backend function a, and the tool record stays at the B outcome. -/
theorem C1_edit_flow_supersession (recId teamId : Nat) (r : ToolRecord)
    (hid : r._id = recId) (hteam : r.teamId = teamId)
    (hstate : r.state = ToolState.PENDING)
    (htype : r.type = ToolType.FUNCTION_TOOL) (a b : String)
    (oldA oldB : Option String) (activeA activeB : Bool)
    (logsA logsB : Option String) :
    (editToolReconcile recId teamId b oldB activeB logsB r).2.1 = 1 ∧
    (editToolReconcile recId teamId a oldA activeA logsA
        (editToolReconcile recId teamId b oldB activeB logsB r).1).1 =
      (editToolReconcile recId teamId b oldB activeB logsB r).1 ∧
    (editToolReconcile recId teamId a oldA activeA logsA
        (editToolReconcile recId teamId b oldB activeB logsB r).1).2.1 = 0 ∧
    (editToolReconcile recId teamId a oldA activeA logsA
        (editToolReconcile recId teamId b oldB activeB logsB r).1).2.2 =
      [Action.deleteFunction (some a)] := by
  obtain ⟨rid, rteam, rtype, rstate, rfid, rlogs⟩ := r
  simp only at hid hteam hstate htype
  subst hid hteam hstate htype
  cases activeB <;>
    simp [editToolReconcile, editToolCas, jsTruthy, ToolRecord.mk.injEq]

/-- C1 witness: the amended supersession theorem instantiated on a concrete
pending record and two concrete edit attempts. -/
theorem C1_edit_flow_supersession_witness :
    (editToolReconcile 1 2 "b" (some "old") true none
        { _id := 1, teamId := 2, type := ToolType.FUNCTION_TOOL,
          state := ToolState.PENDING, functionId := some "old",
          functionLogs := none }).2.1 = 1 ∧
    (editToolReconcile 1 2 "a" (some "old") true none
        (editToolReconcile 1 2 "b" (some "old") true none
          { _id := 1, teamId := 2, type := ToolType.FUNCTION_TOOL,
            state := ToolState.PENDING, functionId := some "old",
            functionLogs := none }).1).2.1 = 0 ∧
    (editToolReconcile 1 2 "a" (some "old") true none
        (editToolReconcile 1 2 "b" (some "old") true none
          { _id := 1, teamId := 2, type := ToolType.FUNCTION_TOOL,
            state := ToolState.PENDING, functionId := some "old",
            functionLogs := none }).1).2.2 =
      [Action.deleteFunction (some "a")] := by
  refine ⟨(C1_edit_flow_supersession 1 2 _ rfl rfl rfl rfl "a" "b" (some "old")
      (some "old") true true none none).1,
    (C1_edit_flow_supersession 1 2 _ rfl rfl rfl rfl "a" "b" (some "old")
      (some "old") true true none none).2.2.1,
    (C1_edit_flow_supersession 1 2 _ rfl rfl rfl rfl "a" "b" (some "old")
      (some "old") true true none none).2.2.2⟩

/-- C2 evidence.  A FUNCTION_TOOL create whose detached deployFunction call
rejects (here with the non NOT_FOUND code 13) leaves the inserted record at
state PENDING with its functionId in place, produces no deleteFunction action
and no ERROR write (the only action is the deploy kickoff itself, whose
rejection has no handler), while the create request already answered with the
302 redirect.  The claim and the spec instead require state ERROR and an
attempted deletion of the partially created function. -/
theorem C2_deploy_rejection_unhandled :
    addToolApi 1 2 ToolType.FUNCTION_TOOL "fn-a" (Except.error 13) true none =
      ({ _id := 1, teamId := 2, type := ToolType.FUNCTION_TOOL,
          state := ToolState.PENDING, functionId := some "fn-a",
          functionLogs := none },
        [Action.deployFunction "fn-a"], HttpOutcome.redirect) := by
  decide

/-- C3 evidence.  Editing a READY FUNCTION_TOOL while changing none of the
deployment-relevant values still redeploys: the change check compares
data.environmentVariables with JS strict inequality, which for two objects
compares heap references, and the request body object is never the same
reference as the stored document object.  With content-equal fields (the
environment object differing only in reference), functionNeedsUpdate is true
and the synchronous edit flow both rewrites state to PENDING and emits a
deployFunction kickoff under a fresh functionId, contradicting the claim that
no deploy happens and state stays unchanged. -/
theorem C3_identity_compare_redeploys :
    functionNeedsUpdate
      { environmentVariables := JsValue.obj 1 [("KEY", "VALUE")],
        code := JsValue.str "return 1", requirements := JsValue.str "requests",
        runtime := JsValue.str "python310" }
      { environmentVariables := JsValue.obj 2 [("KEY", "VALUE")],
        code := JsValue.str "return 1", requirements := JsValue.str "requests",
        runtime := JsValue.str "python310" } = true ∧
    editToolSync
      { _id := 1, teamId := 2, type := ToolType.FUNCTION_TOOL,
        state := ToolState.READY, functionId := some "old-fn",
        functionLogs := none }
      { environmentVariables := JsValue.obj 1 [("KEY", "VALUE")],
        code := JsValue.str "return 1", requirements := JsValue.str "requests",
        runtime := JsValue.str "python310" }
      { environmentVariables := JsValue.obj 2 [("KEY", "VALUE")],
        code := JsValue.str "return 1", requirements := JsValue.str "requests",
        runtime := JsValue.str "python310" }
      ToolType.FUNCTION_TOOL "fresh-fn" =
      ({ _id := 1, teamId := 2, type := ToolType.FUNCTION_TOOL,
          state := ToolState.PENDING, functionId := some "old-fn",
          functionLogs := none },
        [Action.deployFunction "fresh-fn"]) := by
  refine ⟨by decide, by decide⟩

/-- C4.  For waitForFunctionToBeActive the successive poll delays start at
5000 and the i-th delay is 5000 doubled i times, capped at 60000 (hence 5000,
10000, 20000, 40000, 60000, 60000, ...), and the total time slept stays below
maxWaitTime + 60000, that is, it exceeds maxWaitTime by less than one poll
interval (every interval is at most the 60000 cap). -/
theorem C4_backoff_bounds (states : Nat → String) (maxWaitTime : Nat) :
    ((waitForFunctionToBeActive states maxWaitTime).delays ≠ [] →
      (waitForFunctionToBeActive states maxWaitTime).delays.headD 0 = 5000) ∧
    (∀ i, i < (waitForFunctionToBeActive states maxWaitTime).delays.length →
      (waitForFunctionToBeActive states maxWaitTime).delays.getD i 0 =
        min (5000 * 2 ^ i) 60000) ∧
    (waitForFunctionToBeActive states maxWaitTime).elapsed < maxWaitTime + 60000 := by
  refine ⟨waitAux_delays_head states maxWaitTime 0 0 5000 (by omega), ?_, ?_⟩
  · intro i hi
    exact waitAux_delays_closed states maxWaitTime maxWaitTime 0 0 5000 (by omega)
      (by omega) (by omega) i hi
  · exact waitAux_elapsed_lt states maxWaitTime maxWaitTime 0 0 5000 (by omega)
      (by omega) (by omega) (by omega)

/-- C4 witness: a run that polls DEPLOYING once and then ACTIVE sleeps exactly
once, for 5000 ms, and its elapsed time is within the bound. -/
theorem C4_backoff_bounds_witness :
    ((waitForFunctionToBeActive (fun k => if k = 0 then "DEPLOYING" else "ACTIVE")
        10000).delays ≠ [] ∧
      (waitForFunctionToBeActive (fun k => if k = 0 then "DEPLOYING" else "ACTIVE")
        10000).delays.headD 0 = 5000) ∧
    ((0 : Nat) < (waitForFunctionToBeActive
        (fun k => if k = 0 then "DEPLOYING" else "ACTIVE") 10000).delays.length ∧
      (waitForFunctionToBeActive (fun k => if k = 0 then "DEPLOYING" else "ACTIVE")
        10000).delays.getD 0 0 = min (5000 * 2 ^ 0) 60000) ∧
    (waitForFunctionToBeActive (fun k => if k = 0 then "DEPLOYING" else "ACTIVE")
        10000).elapsed < 10000 + 60000 := by
  have heval : waitForFunctionToBeActive
      (fun k => if k = 0 then "DEPLOYING" else "ACTIVE") 10000 =
      { result := true, elapsed := 5000, polls := 2, delays := [5000] } := by
    simp [waitForFunctionToBeActive, waitAux]
  refine ⟨⟨by rw [heval]; simp, ?_⟩, ⟨by rw [heval]; simp, ?_⟩, ?_⟩
  · exact (C4_backoff_bounds _ 10000).1 (by rw [heval]; simp)
  · exact (C4_backoff_bounds _ 10000).2.1 0 (by rw [heval]; simp)
  · exact (C4_backoff_bounds _ 10000).2.2

/-- C5.  With a positive maxWaitTime: a first poll of ACTIVE returns true at
once after a single poll; a first poll that is neither ACTIVE nor DEPLOYING
returns false at once after a single poll and with no sleep; and whenever the
loop returns true, the poll after the last sleep observed ACTIVE while every
earlier poll observed DEPLOYING, so true is returned on the first observed
ACTIVE state. -/
theorem C5_short_circuit (states : Nat → String) (maxWaitTime : Nat)
    (hpos : 0 < maxWaitTime) :
    (states 0 = "ACTIVE" → waitForFunctionToBeActive states maxWaitTime =
      { result := true, elapsed := 0, polls := 1, delays := [] }) ∧
    (states 0 ≠ "ACTIVE" → states 0 ≠ "DEPLOYING" →
      waitForFunctionToBeActive states maxWaitTime =
        { result := false, elapsed := 0, polls := 1, delays := [] }) ∧
    ((waitForFunctionToBeActive states maxWaitTime).result = true →
      states ((waitForFunctionToBeActive states maxWaitTime).delays.length) =
        "ACTIVE" ∧
      ∀ j, j < (waitForFunctionToBeActive states maxWaitTime).delays.length →
        states j = "DEPLOYING") := by
  refine ⟨?_, ?_, ?_⟩
  · intro hact
    unfold waitForFunctionToBeActive waitAux
    rw [dif_pos hpos, if_pos hact]
  · intro hact hdep
    unfold waitForFunctionToBeActive waitAux
    rw [dif_pos hpos, if_neg hact, if_pos hdep]
  · intro hres
    have := waitAux_true_first states maxWaitTime maxWaitTime 0 0 5000 (by omega)
      (by omega) hres
    simpa using this

/-- C5 witness: a constant ACTIVE trace returns true after one poll, and a
constant FAILED trace returns false after one poll with no second poll. -/
theorem C5_short_circuit_witness :
    ((0 : Nat) < 180000 ∧
      waitForFunctionToBeActive (fun _ => "ACTIVE") 180000 =
        { result := true, elapsed := 0, polls := 1, delays := [] }) ∧
    ((fun (_ : Nat) => "FAILED") 0 ≠ "ACTIVE" ∧
      waitForFunctionToBeActive (fun _ => "FAILED") 180000 =
        { result := false, elapsed := 0, polls := 1, delays := [] }) := by
  refine ⟨⟨by omega, (C5_short_circuit (fun _ => "ACTIVE") 180000 (by omega)).1 rfl⟩,
    ⟨by decide, (C5_short_circuit (fun _ => "FAILED") 180000 (by omega)).2.1
      (by decide) (by decide)⟩⟩

/-- C6.  When the edit-flow conditional update (keyed on _id, teamId, state
PENDING and type FUNCTION_TOOL) matches: with an active new function the
record is written READY with the new functionId and the actions are the user
notice followed by deletion of the old function; with an inactive new function
the record is written ERROR with the captured logs and the actions are the
notice followed by deletion of the new, broken function. -/
theorem C6_edit_reconcile_outcomes (recId teamId : Nat) (r : ToolRecord)
    (hid : r._id = recId) (hteam : r.teamId = teamId)
    (hstate : r.state = ToolState.PENDING)
    (htype : r.type = ToolType.FUNCTION_TOOL) (newFid : String)
    (oldFid : String) (hold : oldFid ≠ "") (anyLogs : Option String)
    (oldAny : Option String) (l : String) (hl : l ≠ "") :
    editToolReconcile recId teamId newFid (some oldFid) true anyLogs r =
      ({ r with state := ToolState.READY, functionId := some newFid }, 1,
        [Action.notify, Action.deleteFunction (some oldFid)]) ∧
    editToolReconcile recId teamId newFid oldAny false (some l) r =
      ({ r with state := ToolState.ERROR, functionLogs := some l }, 1,
        [Action.notify, Action.deleteFunction (some newFid)]) := by
  obtain ⟨rid, rteam, rtype, rstate, rfid, rlogs⟩ := r
  simp only at hid hteam hstate htype
  subst hid hteam hstate htype
  constructor
  · simp [editToolReconcile, editToolCas, jsTruthy, ToolRecord.mk.injEq, hold]
  · simp [editToolReconcile, editToolCas, jsTruthy, ToolRecord.mk.injEq, hl]

/-- C6 witness: both reconciliation outcomes on a concrete pending record. -/
theorem C6_edit_reconcile_outcomes_witness :
    ("old" ≠ "" ∧ "log text" ≠ "") ∧
    editToolReconcile 1 2 "new" (some "old") true none
        { _id := 1, teamId := 2, type := ToolType.FUNCTION_TOOL,
          state := ToolState.PENDING, functionId := some "old",
          functionLogs := none } =
      ({ _id := 1, teamId := 2, type := ToolType.FUNCTION_TOOL,
          state := ToolState.READY, functionId := some "new",
          functionLogs := none }, 1,
        [Action.notify, Action.deleteFunction (some "old")]) ∧
    editToolReconcile 1 2 "new" (some "old") false (some "log text")
        { _id := 1, teamId := 2, type := ToolType.FUNCTION_TOOL,
          state := ToolState.PENDING, functionId := some "old",
          functionLogs := none } =
      ({ _id := 1, teamId := 2, type := ToolType.FUNCTION_TOOL,
          state := ToolState.ERROR, functionId := some "old",
          functionLogs := some "log text" }, 1,
        [Action.notify, Action.deleteFunction (some "new")]) := by
  refine ⟨⟨by decide, by decide⟩, ?_, ?_⟩
  · exact (C6_edit_reconcile_outcomes 1 2 _ rfl rfl rfl rfl "new" "old"
      (by decide) none (some "old") "log text" (by decide)).1
  · exact (C6_edit_reconcile_outcomes 1 2 _ rfl rfl rfl rfl "new" "old"
      (by decide) none (some "old") "log text" (by decide)).2

/-- C7.  In deployFunction a successful existence probe selects the
updateFunction branch, a probe error with the NOT_FOUND code 5 is the sole
non-fatal probe failure and selects the createFunction branch, and a probe
error with any other code is propagated to the caller unchanged. -/
theorem C7_existence_check (runCall : DeployCall → Except Nat String) :
    deployFunction ProbeResult.ok runCall = runCall DeployCall.updateFunction ∧
    deployFunction (ProbeResult.err 5) runCall = runCall DeployCall.createFunction ∧
    ∀ c, c ≠ 5 → deployFunction (ProbeResult.err c) runCall = Except.error c := by
  refine ⟨?_, ?_, ?_⟩
  · unfold deployFunction checkFunctionExists
    cases h : runCall DeployCall.updateFunction <;> simp [h]
  · unfold deployFunction checkFunctionExists
    cases h : runCall DeployCall.createFunction <;> simp [h]
  · intro c hc
    simp [deployFunction, checkFunctionExists, hc]

/-- C7 witness: the probe semantics on a concrete backend and the concrete
fatal code 7. -/
theorem C7_existence_check_witness :
    deployFunction ProbeResult.ok (fun _ => Except.ok "name") =
      (fun (_ : DeployCall) => Except.ok "name") DeployCall.updateFunction ∧
    (7 : Nat) ≠ 5 ∧
    deployFunction (ProbeResult.err 7) (fun _ => Except.ok "name") =
      Except.error 7 := by
  refine ⟨(C7_existence_check _).1, by decide,
    (C7_existence_check (fun _ => Except.ok "name")).2.2 7 (by decide)⟩

/-- C8.  For a FUNCTION_TOOL the very first action of the delete flow is the
awaited backend deleteFunction on the stored functionId; when that call
resolves the full trace is deletion, then record removal, then removal of the
references in agents, and when it rejects the flow stops with the record never
removed.  The record is therefore never removed before backend deletion was
attempted and completed. -/
theorem C8_delete_order (tool : ToolRecord)
    (htype : tool.type = ToolType.FUNCTION_TOOL) (deleteOk : Bool) :
    (deleteToolApi tool deleteOk).head? =
      some (Action.deleteFunction tool.functionId) ∧
    (deleteOk = true → deleteToolApi tool deleteOk =
      [Action.deleteFunction tool.functionId, Action.deleteToolRecord,
        Action.removeAgentsTool]) ∧
    (deleteOk = false → deleteToolApi tool deleteOk =
      [Action.deleteFunction tool.functionId]) := by
  cases deleteOk <;> simp [deleteToolApi, htype]

/-- C8 witness: the delete trace for a concrete tool with functionId
fn-123. -/
theorem C8_delete_order_witness :
    (deleteToolApi
        { _id := 1, teamId := 2, type := ToolType.FUNCTION_TOOL,
          state := ToolState.READY, functionId := some "fn-123",
          functionLogs := none } true).head? =
      some (Action.deleteFunction (some "fn-123")) ∧
    deleteToolApi
        { _id := 1, teamId := 2, type := ToolType.FUNCTION_TOOL,
          state := ToolState.READY, functionId := some "fn-123",
          functionLogs := none } true =
      [Action.deleteFunction (some "fn-123"), Action.deleteToolRecord,
        Action.removeAgentsTool] := by
  refine ⟨(C8_delete_order _ rfl true).1, (C8_delete_order _ rfl true).2.1 rfl⟩

/-- C9.  A successful create of a tool whose type is not FUNCTION_TOOL always
persists state READY with a null functionId and performs no action at all, in
particular it never invokes deployFunction; a FUNCTION_TOOL create persists
state PENDING with the freshly generated, non-null functionId. -/
theorem C9_non_function_create (recId teamId : Nat) (type : ToolType)
    (freshId : String) (hneq : type ≠ ToolType.FUNCTION_TOOL)
    (deployOutcome : Except Nat Unit) (isActive : Bool) (logs : Option String) :
    addToolInsert recId teamId type freshId =
      { _id := recId, teamId := teamId, type := type, state := ToolState.READY,
        functionId := none, functionLogs := none } ∧
    addToolApi recId teamId type freshId deployOutcome isActive logs =
      (addToolInsert recId teamId type freshId, [], HttpOutcome.redirect) ∧
    (addToolInsert recId teamId ToolType.FUNCTION_TOOL freshId).state =
      ToolState.PENDING ∧
    (addToolInsert recId teamId ToolType.FUNCTION_TOOL freshId).functionId =
      some freshId := by
  refine ⟨by simp [addToolInsert, hneq], by simp [addToolApi, hneq], by
    simp [addToolInsert], by simp [addToolInsert]⟩

/-- C9 witness: a concrete RAG_TOOL create performs no action and a concrete
FUNCTION_TOOL insert is PENDING. -/
theorem C9_non_function_create_witness :
    ToolType.RAG_TOOL ≠ ToolType.FUNCTION_TOOL ∧
    addToolApi 1 2 ToolType.RAG_TOOL "unused" (Except.ok ()) true none =
      (addToolInsert 1 2 ToolType.RAG_TOOL "unused", [], HttpOutcome.redirect) ∧
    (addToolInsert 1 2 ToolType.FUNCTION_TOOL "fresh").state =
      ToolState.PENDING := by
  refine ⟨by decide,
    (C9_non_function_create 1 2 ToolType.RAG_TOOL "unused" (by decide)
      (Except.ok ()) true none).2.1,
    (C9_non_function_create 1 2 ToolType.RAG_TOOL "fresh" (by decide)
      (Except.ok ()) true none).2.2.1⟩

/-- C10.  updateAsset returns true exactly when a document with the given id
is found at update time, even when the set payload leaves every field
unchanged (in which case the modifiedCount of the underlying updateOne is 0),
and for a missing id it returns false; the embedding is a total function, no
exception is involved. -/
theorem C10_updateAsset (assets : List (Nat × Asset)) (assetId : Nat)
    (u : AssetSet) :
    (updateAsset assets assetId u = true ↔
      (assets.find? (fun p => p.1 == assetId)).isSome) ∧
    (∀ p, assets.find? (fun p => p.1 == assetId) = some p →
      applySet u p.2 = p.2 →
      updateAsset assets assetId u = true ∧
      (assetUpdateOne assets assetId u).2.1 = 0) ∧
    (assets.find? (fun p => p.1 == assetId) = none →
      updateAsset assets assetId u = false) := by
  refine ⟨?_, ?_, ?_⟩
  · cases h : assets.find? (fun p => p.1 == assetId) <;>
      simp [updateAsset, assetUpdateOne, h]
  · intro p hp hfix
    simp [updateAsset, assetUpdateOne, hp, hfix]
  · intro h
    simp [updateAsset, assetUpdateOne, h]

/-- C10 witness: a no-op update on a present id returns true with
modifiedCount 0, and a missing id returns false. -/
theorem C10_updateAsset_witness :
    ([((1 : Nat), ({ teamId := 7, filename := "logo.png" } : Asset))].find?
        (fun p => p.1 == 1) =
      some (1, { teamId := 7, filename := "logo.png" }) ∧
      applySet { teamId := none, filename := none }
        ({ teamId := 7, filename := "logo.png" } : Asset) =
        { teamId := 7, filename := "logo.png" } ∧
      updateAsset [(1, { teamId := 7, filename := "logo.png" })] 1
        { teamId := none, filename := none } = true ∧
      (assetUpdateOne [(1, { teamId := 7, filename := "logo.png" })] 1
        { teamId := none, filename := none }).2.1 = 0) ∧
    ([((1 : Nat), ({ teamId := 7, filename := "logo.png" } : Asset))].find?
        (fun p => p.1 == 9) = none ∧
      updateAsset [(1, { teamId := 7, filename := "logo.png" })] 9
        { teamId := none, filename := none } = false) := by
  refine ⟨⟨by decide, by decide, ?_⟩, by decide, ?_⟩
  · exact (C10_updateAsset [(1, { teamId := 7, filename := "logo.png" })] 1
      { teamId := none, filename := none }).2.1
      (1, { teamId := 7, filename := "logo.png" }) (by decide) (by decide)
  · exact (C10_updateAsset [(1, { teamId := 7, filename := "logo.png" })] 9
      { teamId := none, filename := none }).2.2 (by decide)

end AgentCloud
